import Mathlib

/-!
Shallow embedding of the orbit-clinical-intelligence frontend logic.

The repository is a TypeScript/React dashboard.  The state-update closures
passed to the React setState calls are embedded as pure functions on the state
they transform; JavaScript numbers are embedded as `ℚ` (the threshold
arithmetic uses only decimal literals and comparisons), `Date` values as
`Int` milliseconds, and a JavaScript `Set<string>` as a `List String`
queried by membership.  Number formatting (`toFixed`) and timestamp
parsing (`new Date(string)`) are taken as function parameters, since no
claim depends on their output values.
-/

namespace Orbit

/-- Severity literal type (HIGH, MEDIUM or LOW; part_002 line 61). -/
inductive Severity where
  | HIGH
  | MEDIUM
  | LOW
deriving DecidableEq, Repr

/-- Record `interface Alert` from part_002 lines 57-64. -/
structure Alert where
  id : String
  type : String
  description : String
  severity : Severity
  timestamp : String
  acknowledged : Bool
deriving DecidableEq, Repr

/-- The Acknowledge All button handler, part_002 line 1617:
`setAlerts(prev => prev.map(a => ({ ...a, acknowledged: true })))`. -/
def acknowledgeAllMap (alerts : List Alert) : List Alert :=
  alerts.map (fun a => { a with acknowledged := true })

/-- Single ACK button handler, part_002 lines 1685-1687:
`setAlerts(prev => prev.map(a => a.id === alert.id ? { ...a, acknowledged: true } : a))`. -/
def acknowledgeOne (alerts : List Alert) (x : String) : List Alert :=
  alerts.map (fun a => if a.id = x then { a with acknowledged := true } else a)

/-- Record `interface PatientEvent` shared by AlertsPanel (part_004 lines 4-10),
TimelinePanel and ChatPanel. -/
structure PatientEvent where
  timestamp : String
  type : String
  description : String
  severity : String
  source : String
deriving DecidableEq, Repr

/-- Function `getEventId` from part_004 lines 64-66:
`` `${event.timestamp}-${event.type}-${event.description}` ``. -/
def getEventId (event : PatientEvent) : String :=
  event.timestamp ++ "-" ++ event.type ++ "-" ++ event.description

/-- Result record of the `processedAlerts` memo (part_004 lines 56-60). -/
structure ProcessedAlerts where
  active : List PatientEvent
  warnings : List PatientEvent
  all : List PatientEvent
deriving Repr

/-- Memo `processedAlerts`, part_004 lines 40-62.  `parse` embeds
`new Date(event.timestamp).getTime()`; `now` is `new Date().getTime()`;
`acked` is the `acknowledgedAlerts` set, embedded as a list queried by
membership. -/
def processedAlerts (parse : String → Int) (now : Int)
    (events : List PatientEvent) (acked : List String) : ProcessedAlerts :=
  let oneHour : Int := 60 * 60 * 1000
  let recentEvents := events.filter (fun event => now - parse event.timestamp < oneHour)
  { active := recentEvents.filter
      (fun event => event.severity == "HIGH" && !(acked.contains (getEventId event)))
    warnings := recentEvents.filter
      (fun event => event.severity == "MEDIUM" && !(acked.contains (getEventId event)))
    all := recentEvents }

/-- Handler `acknowledgeAlert`, part_004 lines 68-71:
`setAcknowledgedAlerts(prev => new Set([...prev, eventId]))`. -/
def acknowledgeAlert (acked : List String) (event : PatientEvent) : List String :=
  acked ++ [getEventId event]

/-- Handler `acknowledgeAllAlerts`, part_004 lines 73-77: collects the ids of
`processedAlerts.active ++ processedAlerts.warnings` and adds them to the set. -/
def acknowledgeAllAlerts (parse : String → Int) (now : Int)
    (events : List PatientEvent) (acked : List String) : List String :=
  let allActiveIds := ((processedAlerts parse now events acked).active ++
    (processedAlerts parse now events acked).warnings).map getEventId
  acked ++ allActiveIds

/-- Record `interface VitalsData` from part_002 lines 32-42 (ChatPanel.tsx declares
the same record without the optional `source`). -/
structure VitalsData where
  timestamp : String
  MAP : ℚ
  HR : ℚ
  SpO2 : ℚ
  RR : ℚ
  Temp : ℚ
  EtCO2 : ℚ
  BIS : Option ℚ := none
  source : Option String := none
deriving DecidableEq, Repr

/-- The `newAlerts` list built by `checkForAlerts` (part_002 lines 352-386)
from the latest reading.  `fmt` embeds `Number.prototype.toFixed`; `now` is
`Date.now()`, shared by the three ids created in one call. -/
def newAlertsOf (fmt : ℚ → Nat → String) (now : Int) (latest : VitalsData) : List Alert :=
  (if latest.MAP < 65 then
    [{ id := "MAP_" ++ toString now, type := "HYPOTENSION",
       description := "MAP dropped to " ++ fmt latest.MAP 1 ++ " mmHg",
       severity := Severity.HIGH, timestamp := latest.timestamp, acknowledged := false }]
   else []) ++
  (if 100 < latest.HR then
    [{ id := "HR_" ++ toString now, type := "TACHYCARDIA",
       description := "Heart rate elevated to " ++ fmt latest.HR 0 ++ " bpm",
       severity := Severity.MEDIUM, timestamp := latest.timestamp, acknowledged := false }]
   else []) ++
  (if latest.SpO2 < 95 then
    [{ id := "SPO2_" ++ toString now, type := "HYPOXEMIA",
       description := "SpO₂ decreased to " ++ fmt latest.SpO2 1 ++ "%",
       severity := Severity.HIGH, timestamp := latest.timestamp, acknowledged := false }]
   else [])

/-- Function `checkForAlerts` (part_002 lines 349-396) as a transformer of the
`alerts` state: empty vitals return early; otherwise, when any alert was
generated, `setAlerts(prev => [...prev.slice(-10), ...newAlerts])` runs. -/
def checkForAlerts (fmt : ℚ → Nat → String) (now : Int)
    (vitalsData : List VitalsData) (prev : List Alert) : List Alert :=
  match vitalsData.getLast? with
  | none => prev
  | some latest =>
    let newAlerts := newAlertsOf fmt now latest
    if newAlerts.length > 0 then prev.drop (prev.length - 10) ++ newAlerts else prev

/-- HealthKit effect, part_002 lines 248-252:
`setVitals(prev => [...prev.slice(-50), healthKitVitals])`. -/
def appendVitals (prev : List VitalsData) (v : VitalsData) : List VitalsData :=
  prev.drop (prev.length - 50) ++ [v]

/-- Patient status literal type from part_005 line 31. -/
inductive PStatus where
  | STABLE
  | WARNING
  | CRITICAL
  | EMERGENCY
deriving DecidableEq, Repr

/-- Gender literal type (M or F). -/
inductive Gender where
  | M
  | F
deriving DecidableEq, Repr

/-- The inline `vitals` record of the part_005 `Patient` (lines 12-21);
`timestamp: Date` embedded as `Int` milliseconds. -/
structure PVitals where
  MAP : ℚ
  HR : ℚ
  SpO2 : ℚ
  RR : ℚ
  Temp : ℚ
  EtCO2 : ℚ
  BIS : Option ℚ := none
  timestamp : Int
deriving DecidableEq, Repr

/-- The inline alert record of the part_005 `Patient` (lines 22-29). -/
structure MPAlert where
  id : String
  type : String
  severity : Severity
  description : String
  timestamp : Int
  acknowledged : Bool
deriving DecidableEq, Repr

/-- The `assignedStaff` record of the part_005 `Patient` (lines 32-36). -/
structure Staff where
  surgeon : String
  anesthesiologist : String
  nurse : String
deriving DecidableEq, Repr

/-- Record `export interface Patient` from part_005 lines 4-37. -/
structure Patient where
  id : String
  name : String
  room : String
  age : Nat
  gender : Gender
  procedure : String
  admissionTime : Int
  vitals : PVitals
  alerts : List MPAlert
  riskScore : ℚ
  status : PStatus
  assignedStaff : Staff
deriving DecidableEq, Repr

/-- Function `calculateRiskScore` from part_005 lines 175-195: threshold
contributions summed, 0.1 per unacknowledged alert, clamped by
`Math.min(1, score)`. -/
def calculateRiskScore (patient : Patient) : ℚ :=
  let v := patient.vitals
  let score : ℚ := 0
  let score := if v.MAP < 65 then score + 0.3 else score
  let score := if v.MAP < 55 then score + 0.2 else score
  let score := if 100 < v.HR then score + 0.2 else score
  let score := if 120 < v.HR then score + 0.2 else score
  let score := if v.SpO2 < 95 then score + 0.3 else score
  let score := if v.SpO2 < 90 then score + 0.3 else score
  let score := score + ((patient.alerts.filter (fun a => !a.acknowledged)).length : ℚ) * 0.1
  min 1 score

/-- The 5-second `updateInterval` tick of MultiPatientDashboard (part_005
lines 147-153): `setPatients(prev => prev.map(patient => ({ ...patient,
vitals: generateVitals(patient.status === CRITICAL),
riskScore: calculateRiskScore(patient) })))`.  `gen` embeds the random
`generateVitals`, keyed by the `concerning` flag it receives. -/
def updateTick (gen : Bool → PVitals) (patients : List Patient) : List Patient :=
  patients.map (fun patient =>
    { patient with
      vitals := gen (patient.status == PStatus.CRITICAL)
      riskScore := calculateRiskScore patient })

/-- Drops leading whitespace characters from a character list. -/
def trimLeftChars (l : List Char) : List Char :=
  match l with
  | [] => []
  | c :: cs => if c.isWhitespace then trimLeftChars cs else c :: cs

/-- JavaScript `String.prototype.trim`, embedded structurally (strip
whitespace from both ends) so that concrete inputs evaluate. -/
def jsTrim (s : String) : String :=
  String.mk ((trimLeftChars (trimLeftChars s.data).reverse).reverse)

/-- Record `interface ChatMessage` from ChatPanel.tsx lines 23-29;
`timestamp: Date` embedded as `Int` milliseconds. -/
structure ChatMessage where
  id : String
  role : String
  content : String
  timestamp : Int
  confidence : Option ℚ := none
  sources : Option (List String) := none
deriving DecidableEq, Repr

/-- The ChatPanel state touched by `sendMessage`. -/
structure ChatPanelState where
  messages : List ChatMessage
  inputMessage : String
  isLoading : Bool
deriving Repr

/-- Body of the POST to `/api/ask` issued by the ChatPanel `sendMessage`
(ChatPanel.tsx lines 122-135). -/
structure AskRequest where
  url : String
  method : String
  query : String
  patient_data : String
  clinical_specialty : String
  chat_history : List (String × String)
deriving DecidableEq, Repr

/-- Outcome of a `fetch` call as seen by the surrounding `try`/`catch`:
a resolved ok response, a resolved non-ok response (the code throws on
`!response.ok`), or a rejected promise (network failure). -/
inductive FetchOutcome where
  | ok (response : String) (confidence : ℚ) (sources : List String)
  | httpError (status : Nat)
  | networkError
deriving DecidableEq, Repr

/-- An apostrophe character, kept out of string literals. -/
def apos : String := String.singleton (Char.ofNat 39)

/-- Canned error content of the ChatPanel catch branch
(ChatPanel.tsx line 159). -/
def cpErrorContent : String :=
  "I apologize, but I" ++ apos ++
    "m currently unable to process your request. Please check the connection and try again."

/-- Function `formatPatientContext` from ChatPanel.tsx lines 80-105.
`toFixed` embeds number formatting; the template literal is reproduced
with its leading/trailing newlines, the optional BIS line and the
joined last-5 events. -/
def formatPatientContext (toFixed : ℚ → Nat → String) (vitalsData : List VitalsData)
    (events : List PatientEvent) (selectedContext : String) : String :=
  match vitalsData.getLast? with
  | none => "No current patient data available."
  | some latest =>
    let recentEvents := events.drop (events.length - 5)
    "\nCurrent Patient Status:\n- MAP: " ++ toFixed latest.MAP 1 ++
    " mmHg\n- Heart Rate: " ++ toFixed latest.HR 0 ++
    " bpm\n- SpO₂: " ++ toFixed latest.SpO2 1 ++
    "%\n- Respiratory Rate: " ++ toFixed latest.RR 0 ++
    " /min\n- Temperature: " ++ toFixed latest.Temp 1 ++
    "°C\n- End-tidal CO₂: " ++ toFixed latest.EtCO2 1 ++ " mmHg\n" ++
    (match latest.BIS with
     | some bis => "- BIS: " ++ toFixed bis 1
     | none => "") ++
    "\n\nRecent Events:\n" ++
    (if recentEvents.length > 0 then
      String.intercalate "\n"
        (recentEvents.map (fun e => "- " ++ e.description ++ " (" ++ e.timestamp ++ ")"))
     else "- No recent events") ++
    "\n\nClinical Context: " ++ selectedContext ++ "\n"

/-- Function `sendMessage` from ChatPanel.tsx lines 107-169, as a function
of the props (`vitalsData`, `events`), the selected context, the state and
an abstract fetch outcome.  `now` embeds `Date.now()` (the user message id;
the reply id is `Date.now() + 1`).  Returns the new state and the list of
HTTP requests the call issued. -/
def sendMessage (toFixed : ℚ → Nat → String) (vitalsData : List VitalsData)
    (events : List PatientEvent) (selectedContext : String)
    (st : ChatPanelState) (content : String) (now : Int)
    (outcome : FetchOutcome) : ChatPanelState × List AskRequest :=
  if jsTrim content = "" ∨ st.isLoading then (st, [])
  else
    let userMessage : ChatMessage :=
      { id := toString now, role := "user", content := jsTrim content, timestamp := now }
    let st1 : ChatPanelState :=
      { messages := st.messages ++ [userMessage], inputMessage := "", isLoading := true }
    let req : AskRequest :=
      { url := "/api/ask", method := "POST", query := jsTrim content,
        patient_data := formatPatientContext toFixed vitalsData events selectedContext,
        clinical_specialty := selectedContext,
        chat_history := (st.messages.drop (st.messages.length - 5)).map
          (fun m => (m.role, m.content)) }
    match outcome with
    | FetchOutcome.ok response confidence sources =>
      let assistantMessage : ChatMessage :=
        { id := toString (now + 1), role := "assistant", content := response,
          timestamp := now + 1, confidence := some confidence, sources := some sources }
      ({ st1 with messages := st1.messages ++ [assistantMessage], isLoading := false }, [req])
    | FetchOutcome.httpError _ =>
      let errorMessage : ChatMessage :=
        { id := toString (now + 1), role := "assistant", content := cpErrorContent,
          timestamp := now + 1, confidence := some 0, sources := some ["Error Handler"] }
      ({ st1 with messages := st1.messages ++ [errorMessage], isLoading := false }, [req])
    | FetchOutcome.networkError =>
      let errorMessage : ChatMessage :=
        { id := toString (now + 1), role := "assistant", content := cpErrorContent,
          timestamp := now + 1, confidence := some 0, sources := some ["Error Handler"] }
      ({ st1 with messages := st1.messages ++ [errorMessage], isLoading := false }, [req])

/-- Canned error content of the main page `sendChatMessage` catch branch
(part_002 line 434). -/
def mainPageChatError : String :=
  "Connection error. Please check if the backend is running."

/-- Catch branch of `sendChatMessage` on the main page (part_002 lines
432-437): appends one assistant message with the canned content and clears
`chatLoading`.  Messages are (role, content) pairs as in the page and its
untyped `chatMessages` state. -/
def sendChatMessageCatch (chatMessages : List (String × String)) :
    List (String × String) × Bool :=
  (chatMessages ++ [("assistant", mainPageChatError)], false)

/-- Body of the POST to `/api/forecast` issued by the RiskForecast
`fetchForecast` (RiskForecast.tsx lines 63-72). -/
structure ForecastRequest where
  url : String
  method : String
  duration_minutes : Nat
  vitals_type : String
deriving DecidableEq, Repr

/-- The RiskForecast state touched by `fetchForecast`. -/
structure RiskForecastState where
  forecastData : Option String
  loading : Bool
  error : Option String
deriving Repr

/-- Function `fetchForecast` from RiskForecast.tsx lines 58-87: one POST to
`/api/forecast` with `duration_minutes: 30` and the selected metric;
on success stores the data, on failure stores an error message; `loading`
is cleared in `finally`.  The response payload is abstracted to a string. -/
def fetchForecast (st : RiskForecastState) (selectedMetric : String)
    (outcome : FetchOutcome) : RiskForecastState × List ForecastRequest :=
  let req : ForecastRequest :=
    { url := "/api/forecast", method := "POST",
      duration_minutes := 30, vitals_type := selectedMetric }
  match outcome with
  | FetchOutcome.ok response _ _ =>
    ({ forecastData := some response, loading := false, error := none }, [req])
  | FetchOutcome.httpError status =>
    ({ st with
        loading := false
        error := some ("HTTP error! status: " ++ toString status) }, [req])
  | FetchOutcome.networkError =>
    ({ st with loading := false, error := some "Failed to fetch forecast" }, [req])

/-- One `setInterval` call site: the component, the period passed, and
whether the surrounding effect (or returned stop function) cancels it
with `clearInterval`. -/
structure IntervalTimer where
  component : String
  periodMs : Nat
  clearsOnCleanup : Bool
deriving DecidableEq, Repr

/-- Every `setInterval` call site in the components of the repository.
The part_002 line 344 call picks `healthKitConnected ? 10000 : 5000`,
listed as two entries. -/
def programIntervals : List IntervalTimer :=
  [ { component := "useHealthKit.startMonitoring (part_002:183)",
      periodMs := 3000, clearsOnCleanup := true },
    { component := "CompleteORBIT.fetchData, healthKit connected (part_002:344)",
      periodMs := 10000, clearsOnCleanup := true },
    { component := "CompleteORBIT.fetchData, healthKit disconnected (part_002:344)",
      periodMs := 5000, clearsOnCleanup := true },
    { component := "MultiPatientDashboard.updateInterval (part_005:147)",
      periodMs := 5000, clearsOnCleanup := true },
    { component := "MobileApp.fetchData (part_006:73)",
      periodMs := 10000, clearsOnCleanup := true },
    { component := "HealthKitManager.startRealtimeStream (frontend/utils/healthkit.tsx:117)",
      periodMs := 5000, clearsOnCleanup := true },
    { component := "RiskForecast auto-refresh (RiskForecast.tsx:94)",
      periodMs := 15000, clearsOnCleanup := true },
    { component := "PatientSummary.fetchSummary (PatientSummary.tsx:68)",
      periodMs := 30000, clearsOnCleanup := true },
    { component := "BackendStatus.testConnection (frontend_setup_script.sh:429)",
      periodMs := 5000, clearsOnCleanup := true } ]

/-- Concrete vitals reading breaching all three alert thresholds, used to
instantiate theorems at a concrete input. -/
def sampleBreachVitals : VitalsData :=
  { timestamp := "2024-01-01T00:00:00Z", MAP := 60, HR := 110, SpO2 := 90,
    RR := 16, Temp := 37, EtCO2 := 35 }

/-- Constant formatter used to instantiate format-parameterized theorems. -/
def fmt0 : ℚ → Nat → String := fun _ _ => ""

/-- Concrete patient event used to instantiate theorems at a concrete
input. -/
def sampleEvent : PatientEvent :=
  { timestamp := "2024-01-01T00:00:00Z", type := "HYPOTENSION",
    description := "MAP dropped to 58 mmHg", severity := "HIGH", source := "monitor" }

/-- The 3000 ms HealthKit monitoring timer (part_002 line 183). -/
def healthKitTimer : IntervalTimer :=
  { component := "useHealthKit.startMonitoring (part_002:183)"
    periodMs := 3000
    clearsOnCleanup := true }

/-- The 30000 ms PatientSummary refresh timer (PatientSummary.tsx line 68). -/
def patientSummaryTimer : IntervalTimer :=
  { component := "PatientSummary.fetchSummary (PatientSummary.tsx:68)"
    periodMs := 30000
    clearsOnCleanup := true }

/-! ## Supporting lemmas -/

theorem mem_active_iff (parse : String → Int) (now : Int)
    (events : List PatientEvent) (acked : List String) (ev : PatientEvent) :
    ev ∈ (processedAlerts parse now events acked).active ↔
      ev ∈ events ∧ now - parse ev.timestamp < 60 * 60 * 1000 ∧
        ev.severity = "HIGH" ∧ getEventId ev ∉ acked := by
  simp [processedAlerts, List.mem_filter]
  tauto

theorem mem_warnings_iff (parse : String → Int) (now : Int)
    (events : List PatientEvent) (acked : List String) (ev : PatientEvent) :
    ev ∈ (processedAlerts parse now events acked).warnings ↔
      ev ∈ events ∧ now - parse ev.timestamp < 60 * 60 * 1000 ∧
        ev.severity = "MEDIUM" ∧ getEventId ev ∉ acked := by
  simp [processedAlerts, List.mem_filter]
  tauto

theorem acked_subset_ackAll (parse : String → Int) (now : Int)
    (events : List PatientEvent) (acked : List String) :
    acked ⊆ acknowledgeAllAlerts parse now events acked := by
  simp only [acknowledgeAllAlerts]
  exact List.subset_append_left _ _

theorem ackAll_active_nil (parse : String → Int) (now : Int)
    (events : List PatientEvent) (acked : List String) :
    (processedAlerts parse now events (acknowledgeAllAlerts parse now events acked)).active
      = [] := by
  refine List.eq_nil_iff_forall_not_mem.mpr (fun ev hev => ?_)
  rw [mem_active_iff] at hev
  obtain ⟨hmem, htime, hsev, hnot⟩ := hev
  refine hnot ?_
  have hnk : getEventId ev ∉ acked := fun hk => hnot (acked_subset_ackAll _ _ _ _ hk)
  simp only [acknowledgeAllAlerts, List.mem_append, List.mem_map]
  exact Or.inr ⟨ev, Or.inl
    ((mem_active_iff parse now events acked ev).mpr ⟨hmem, htime, hsev, hnk⟩), rfl⟩

theorem ackAll_warnings_nil (parse : String → Int) (now : Int)
    (events : List PatientEvent) (acked : List String) :
    (processedAlerts parse now events (acknowledgeAllAlerts parse now events acked)).warnings
      = [] := by
  refine List.eq_nil_iff_forall_not_mem.mpr (fun ev hev => ?_)
  rw [mem_warnings_iff] at hev
  obtain ⟨hmem, htime, hsev, hnot⟩ := hev
  refine hnot ?_
  have hnk : getEventId ev ∉ acked := fun hk => hnot (acked_subset_ackAll _ _ _ _ hk)
  simp only [acknowledgeAllAlerts, List.mem_append, List.mem_map]
  exact Or.inr ⟨ev, Or.inr
    ((mem_warnings_iff parse now events acked ev).mpr ⟨hmem, htime, hsev, hnk⟩), rfl⟩

/-! ## Claims -/

/-- C1: clicking Acknowledge All sets every alert's acknowledged flag to
true and changes no other field and no position (part_002 map handler);
correspondingly, the AlertsPanel `acknowledgeAllAlerts` leaves no active
or warning alert unacknowledged (part_004). -/
theorem C1_acknowledge_all_sets_all_flags (alerts : List Alert)
    (parse : String → Int) (now : Int) (events : List PatientEvent)
    (acked : List String) :
    List.Forall₂ (fun a b =>
        b.id = a.id ∧ b.type = a.type ∧ b.description = a.description ∧
        b.severity = a.severity ∧ b.timestamp = a.timestamp ∧
        b.acknowledged = true)
      alerts (acknowledgeAllMap alerts)
    ∧ (acknowledgeAllMap alerts).length = alerts.length
    ∧ (processedAlerts parse now events
        (acknowledgeAllAlerts parse now events acked)).active = []
    ∧ (processedAlerts parse now events
        (acknowledgeAllAlerts parse now events acked)).warnings = [] := by
  refine ⟨?_, by simp [acknowledgeAllMap], ackAll_active_nil parse now events acked,
    ackAll_warnings_nil parse now events acked⟩
  simp only [acknowledgeAllMap]
  rw [List.forall₂_map_right_iff, List.forall₂_same]
  exact fun a _ => ⟨rfl, rfl, rfl, rfl, rfl, rfl⟩

/-- C3: acknowledging a single alert flips the acknowledged flag of
exactly the alerts whose id matches, keeps all their other fields, leaves
every other alert entirely unchanged, and preserves length and order. -/
theorem C3_single_ack_frame (alerts : List Alert) (x : String) :
    (acknowledgeOne alerts x).length = alerts.length
    ∧ List.Forall₂ (fun a b =>
        b.id = a.id ∧ b.type = a.type ∧ b.description = a.description ∧
        b.severity = a.severity ∧ b.timestamp = a.timestamp ∧
        b.acknowledged = (if a.id = x then true else a.acknowledged))
      alerts (acknowledgeOne alerts x) := by
  refine ⟨by simp [acknowledgeOne], ?_⟩
  simp only [acknowledgeOne]
  rw [List.forall₂_map_right_iff, List.forall₂_same]
  intro a _
  by_cases h : a.id = x <;> simp [h]

/-- C4: the 5-second MultiPatientDashboard tick rewrites only `vitals` and
`riskScore`; every identifying, clinical and staffing field of every
patient is unchanged, and the number and order of patients is
preserved. -/
theorem C4_update_tick_frame (gen : Bool → PVitals) (patients : List Patient) :
    (updateTick gen patients).length = patients.length
    ∧ List.Forall₂ (fun p q =>
        q.id = p.id ∧ q.name = p.name ∧ q.room = p.room ∧ q.age = p.age ∧
        q.gender = p.gender ∧ q.procedure = p.procedure ∧
        q.admissionTime = p.admissionTime ∧ q.alerts = p.alerts ∧
        q.status = p.status ∧ q.assignedStaff = p.assignedStaff)
      patients (updateTick gen patients) := by
  refine ⟨by simp [updateTick], ?_⟩
  simp only [updateTick]
  rw [List.forall₂_map_right_iff, List.forall₂_same]
  exact fun p _ => ⟨rfl, rfl, rfl, rfl, rfl, rfl, rfl, rfl, rfl, rfl⟩

/-- C8: `calculateRiskScore` always lands in the closed interval [0, 1]:
all threshold and alert contributions are nonnegative and the sum is
clamped by `min 1`. -/
theorem C8_risk_score_in_unit_interval (patient : Patient) :
    0 ≤ calculateRiskScore patient ∧ calculateRiskScore patient ≤ 1 := by
  constructor
  · simp only [calculateRiskScore]
    refine le_min (by norm_num) ?_
    split_ifs <;> positivity
  · simp only [calculateRiskScore]
    exact min_le_left _ _

/-- C10: appending a HealthKit reading keeps the history bounded: the
result is the last 50 previous readings followed by the new one, so its
length is at most 51, the new reading is the last element, and the
retained readings are a suffix of the previous list in order. -/
theorem C10_vitals_history_bounded (prev : List VitalsData) (v : VitalsData) :
    (appendVitals prev v).length ≤ 51
    ∧ (appendVitals prev v).getLast? = some v
    ∧ (appendVitals prev v).dropLast = prev.drop (prev.length - 50)
    ∧ prev.drop (prev.length - 50) <:+ prev := by
  refine ⟨?_, ?_, ?_, List.drop_suffix _ _⟩
  · simp only [appendVitals, List.length_append, List.length_drop, List.length_singleton]
    omega
  · simp [appendVitals]
  · simp [appendVitals]

/-- C2: `checkForAlerts` generates, from the latest reading of a non-empty
vitals list, a HIGH HYPOTENSION alert iff MAP < 65, a MEDIUM TACHYCARDIA
alert iff HR > 100, and a HIGH HYPOXEMIA alert iff SpO2 < 95; the
generated alerts end the resulting alert state; for an empty vitals list
the alert state is unchanged. -/
theorem C2_threshold_alerts (fmt : ℚ → Nat → String) (now : Int)
    (vitalsData : List VitalsData) (prev : List Alert) (latest : VitalsData)
    (h : vitalsData.getLast? = some latest) :
    ((∃ a ∈ newAlertsOf fmt now latest,
        a.type = "HYPOTENSION" ∧ a.severity = Severity.HIGH) ↔ latest.MAP < 65)
    ∧ ((∃ a ∈ newAlertsOf fmt now latest,
        a.type = "TACHYCARDIA" ∧ a.severity = Severity.MEDIUM) ↔ 100 < latest.HR)
    ∧ ((∃ a ∈ newAlertsOf fmt now latest,
        a.type = "HYPOXEMIA" ∧ a.severity = Severity.HIGH) ↔ latest.SpO2 < 95)
    ∧ newAlertsOf fmt now latest <:+ checkForAlerts fmt now vitalsData prev
    ∧ checkForAlerts fmt now [] prev = prev := by
  refine ⟨?_, ?_, ?_, ?_, rfl⟩
  · by_cases h1 : latest.MAP < 65 <;> by_cases h2 : 100 < latest.HR <;>
      by_cases h3 : latest.SpO2 < 95 <;> simp [newAlertsOf, h1, h2, h3]
  · by_cases h1 : latest.MAP < 65 <;> by_cases h2 : 100 < latest.HR <;>
      by_cases h3 : latest.SpO2 < 95 <;> simp [newAlertsOf, h1, h2, h3]
  · by_cases h1 : latest.MAP < 65 <;> by_cases h2 : 100 < latest.HR <;>
      by_cases h3 : latest.SpO2 < 95 <;> simp [newAlertsOf, h1, h2, h3]
  · simp only [checkForAlerts, h]
    by_cases hn : newAlertsOf fmt now latest = []
    · rw [hn]
      exact List.nil_suffix
    · rw [if_pos (by simpa [List.length_pos] using hn)]
      exact List.suffix_append _ _

/-- Witness for C2 at a concrete reading breaching all three thresholds. -/
theorem C2_threshold_alerts_witness :
    ([sampleBreachVitals].getLast? = some sampleBreachVitals)
    ∧ (((∃ a ∈ newAlertsOf fmt0 0 sampleBreachVitals,
          a.type = "HYPOTENSION" ∧ a.severity = Severity.HIGH)
            ↔ sampleBreachVitals.MAP < 65)
      ∧ ((∃ a ∈ newAlertsOf fmt0 0 sampleBreachVitals,
          a.type = "TACHYCARDIA" ∧ a.severity = Severity.MEDIUM)
            ↔ 100 < sampleBreachVitals.HR)
      ∧ ((∃ a ∈ newAlertsOf fmt0 0 sampleBreachVitals,
          a.type = "HYPOXEMIA" ∧ a.severity = Severity.HIGH)
            ↔ sampleBreachVitals.SpO2 < 95)
      ∧ newAlertsOf fmt0 0 sampleBreachVitals
          <:+ checkForAlerts fmt0 0 [sampleBreachVitals] []
      ∧ checkForAlerts fmt0 0 [] [] = []) :=
  ⟨rfl, C2_threshold_alerts fmt0 0 [sampleBreachVitals] [] sampleBreachVitals rfl⟩

/-- C9: the acknowledged-alerts set only grows under `acknowledgeAlert`
and `acknowledgeAllAlerts`, and an event whose id is in the set never
appears among the active or warning alerts of any state whose set
contains the current one. -/
theorem C9_acknowledged_never_reappears (parse : String → Int)
    (now now2 : Int) (events events2 : List PatientEvent)
    (acked acked2 : List String) (e ev : PatientEvent)
    (hsub : acked ⊆ acked2) (hmem : getEventId ev ∈ acked) :
    acked ⊆ acknowledgeAlert acked e
    ∧ acked ⊆ acknowledgeAllAlerts parse now events acked
    ∧ ev ∉ (processedAlerts parse now2 events2 acked2).active
    ∧ ev ∉ (processedAlerts parse now2 events2 acked2).warnings := by
  refine ⟨List.subset_append_left _ _,
    acked_subset_ackAll parse now events acked, ?_, ?_⟩
  · intro hx
    exact ((mem_active_iff parse now2 events2 acked2 ev).mp hx).2.2.2 (hsub hmem)
  · intro hx
    exact ((mem_warnings_iff parse now2 events2 acked2 ev).mp hx).2.2.2 (hsub hmem)

/-- Witness for C9 at a concrete acknowledged event. -/
theorem C9_acknowledged_never_reappears_witness :
    ([getEventId sampleEvent] ⊆ [getEventId sampleEvent])
    ∧ getEventId sampleEvent ∈ [getEventId sampleEvent]
    ∧ ([getEventId sampleEvent]
        ⊆ acknowledgeAlert [getEventId sampleEvent] sampleEvent
      ∧ [getEventId sampleEvent]
        ⊆ acknowledgeAllAlerts (fun _ => 0) 0 [sampleEvent] [getEventId sampleEvent]
      ∧ sampleEvent
        ∉ (processedAlerts (fun _ => 0) 0 [sampleEvent] [getEventId sampleEvent]).active
      ∧ sampleEvent
        ∉ (processedAlerts (fun _ => 0) 0 [sampleEvent] [getEventId sampleEvent]).warnings) :=
  ⟨List.Subset.refl _, List.mem_singleton_self _,
    C9_acknowledged_never_reappears (fun _ => 0) 0 0 [sampleEvent] [sampleEvent]
      [getEventId sampleEvent] [getEventId sampleEvent] sampleEvent sampleEvent
      (List.Subset.refl _) (List.mem_singleton_self _)⟩

/-- C5: on a network failure, the ChatPanel send operation appends the
user message and exactly one assistant message whose content is the fixed
canned string, clears the loading flag, issues exactly one request (no
retry), and leaves all previously displayed messages unchanged; the main
page catch branch appends its own canned assistant message and clears its
loading flag. -/
theorem C5_network_failure_canned_reply (toFixed : ℚ → Nat → String)
    (vitalsData : List VitalsData) (events : List PatientEvent)
    (selectedContext : String) (st : ChatPanelState) (content : String)
    (now : Int) (msgs : List (String × String))
    (h1 : jsTrim content ≠ "") (h2 : st.isLoading = false) :
    ((sendMessage toFixed vitalsData events selectedContext st content now
        FetchOutcome.networkError).1.messages
      = st.messages ++
        [{ id := toString now, role := "user", content := jsTrim content,
           timestamp := now },
         { id := toString (now + 1), role := "assistant", content := cpErrorContent,
           timestamp := now + 1, confidence := some 0,
           sources := some ["Error Handler"] }])
    ∧ (sendMessage toFixed vitalsData events selectedContext st content now
        FetchOutcome.networkError).1.isLoading = false
    ∧ (sendMessage toFixed vitalsData events selectedContext st content now
        FetchOutcome.networkError).2.length = 1
    ∧ sendChatMessageCatch msgs = (msgs ++ [("assistant", mainPageChatError)], false) := by
  refine ⟨?_, ?_, ?_, rfl⟩ <;> simp [sendMessage, h1, h2]

/-- Witness for C5 at a concrete chat state and input. -/
theorem C5_network_failure_canned_reply_witness :
    (jsTrim "help" ≠ "")
    ∧ (({ messages := [], inputMessage := "", isLoading := false } :
          ChatPanelState).isLoading = false)
    ∧ (((sendMessage fmt0 [] [] "General OR consultation"
          { messages := [], inputMessage := "", isLoading := false } "help" 0
          FetchOutcome.networkError).1.messages
        = [] ++
          [{ id := toString (0 : Int), role := "user", content := jsTrim "help",
             timestamp := 0 },
           { id := toString ((0 : Int) + 1), role := "assistant",
             content := cpErrorContent, timestamp := (0 : Int) + 1,
             confidence := some 0, sources := some ["Error Handler"] }])
      ∧ (sendMessage fmt0 [] [] "General OR consultation"
          { messages := [], inputMessage := "", isLoading := false } "help" 0
          FetchOutcome.networkError).1.isLoading = false
      ∧ (sendMessage fmt0 [] [] "General OR consultation"
          { messages := [], inputMessage := "", isLoading := false } "help" 0
          FetchOutcome.networkError).2.length = 1
      ∧ sendChatMessageCatch []
        = ([] ++ [("assistant", mainPageChatError)], false)) :=
  ⟨by decide, rfl,
    C5_network_failure_canned_reply fmt0 [] [] "General OR consultation"
      { messages := [], inputMessage := "", isLoading := false } "help" 0 []
      (by decide) rfl⟩

/-- C7: the ChatPanel send operation issues exactly one POST to /api/ask
carrying the trimmed query and the formatted patient context, and the
RiskForecast fetch issues exactly one POST to /api/forecast with
duration_minutes = 30; neither operation contacts any other endpoint. -/
theorem C7_expected_endpoints (toFixed : ℚ → Nat → String)
    (vitalsData : List VitalsData) (events : List PatientEvent)
    (selectedContext : String) (st : ChatPanelState) (content : String)
    (now : Int) (outcome : FetchOutcome) (st2 : RiskForecastState)
    (metric : String) (outcome2 : FetchOutcome)
    (h1 : jsTrim content ≠ "") (h2 : st.isLoading = false) :
    (∃ req : AskRequest,
        (sendMessage toFixed vitalsData events selectedContext st content now
          outcome).2 = [req]
        ∧ req.url = "/api/ask" ∧ req.method = "POST"
        ∧ req.query = jsTrim content
        ∧ req.patient_data
          = formatPatientContext toFixed vitalsData events selectedContext
        ∧ req.clinical_specialty = selectedContext)
    ∧ (fetchForecast st2 metric outcome2).2
      = [{ url := "/api/forecast", method := "POST", duration_minutes := 30,
           vitals_type := metric }] := by
  constructor
  · refine ⟨{ url := "/api/ask"
              method := "POST"
              query := jsTrim content
              patient_data := formatPatientContext toFixed vitalsData events selectedContext
              clinical_specialty := selectedContext
              chat_history := (st.messages.drop (st.messages.length - 5)).map
                (fun m => (m.role, m.content)) }, ?_, rfl, rfl, rfl, rfl, rfl⟩
    cases outcome <;> simp [sendMessage, h1, h2]
  · cases outcome2 <;> rfl

/-- Witness for C7 at a concrete chat state, input and forecast state. -/
theorem C7_expected_endpoints_witness :
    (jsTrim "help" ≠ "")
    ∧ (({ messages := [], inputMessage := "", isLoading := false } :
          ChatPanelState).isLoading = false)
    ∧ ((∃ req : AskRequest,
        (sendMessage fmt0 [] [] "General OR consultation"
          { messages := [], inputMessage := "", isLoading := false } "help" 0
          FetchOutcome.networkError).2 = [req]
        ∧ req.url = "/api/ask" ∧ req.method = "POST"
        ∧ req.query = jsTrim "help"
        ∧ req.patient_data = formatPatientContext fmt0 [] [] "General OR consultation"
        ∧ req.clinical_specialty = "General OR consultation")
      ∧ (fetchForecast { forecastData := none, loading := true, error := none }
          "MAP" FetchOutcome.networkError).2
        = [{ url := "/api/forecast", method := "POST", duration_minutes := 30,
             vitals_type := "MAP" }]) :=
  ⟨by decide, rfl,
    C7_expected_endpoints fmt0 [] [] "General OR consultation"
      { messages := [], inputMessage := "", isLoading := false } "help" 0
      FetchOutcome.networkError
      { forecastData := none, loading := true, error := none } "MAP"
      FetchOutcome.networkError (by decide) rfl⟩

/-- C6 counterexample: the PatientSummary auto-refresh timer runs every
30000 ms, outside the claimed 3000-15000 ms range, so not every
setInterval period lies between 3 and 15 seconds. -/
theorem C6_counterexample_interval_periods :
    ∃ t ∈ programIntervals, ¬ (3000 ≤ t.periodMs ∧ t.periodMs ≤ 15000) :=
  ⟨patientSummaryTimer, by decide, by decide⟩

/-- C6 amended: every setInterval period in the program is between 3000
and 30000 ms inclusive (the periods used are 3000, 5000, 10000, 15000 and
30000 ms), and each creating effect cancels its timer with clearInterval
on cleanup. -/
theorem C6_amended_interval_periods :
    ∀ t ∈ programIntervals,
      3000 ≤ t.periodMs ∧ t.periodMs ≤ 30000 ∧ t.clearsOnCleanup = true
      ∧ (t.periodMs = 3000 ∨ t.periodMs = 5000 ∨ t.periodMs = 10000
          ∨ t.periodMs = 15000 ∨ t.periodMs = 30000) := by
  decide

/-- Witness for the amended C6 at the 3000 ms HealthKit timer. -/
theorem C6_amended_interval_periods_witness :
    healthKitTimer ∈ programIntervals
    ∧ (3000 ≤ healthKitTimer.periodMs ∧ healthKitTimer.periodMs ≤ 30000
      ∧ healthKitTimer.clearsOnCleanup = true
      ∧ (healthKitTimer.periodMs = 3000 ∨ healthKitTimer.periodMs = 5000
        ∨ healthKitTimer.periodMs = 10000 ∨ healthKitTimer.periodMs = 15000
        ∨ healthKitTimer.periodMs = 30000)) :=
  ⟨by decide, C6_amended_interval_periods healthKitTimer (by decide)⟩

end Orbit
